import Mathlib

/-!
Shallow embedding of the K4_OOP job-vacancy utility.

Source layout:
* `src/src/integration.py` — the `Vacancy` record model: construction from a raw
  JSON payload (`json_to_object`), the salary-range check (`is_filter_by_salary`),
  the combined field filter (`filter_by_fields`), serialization
  (`serialized_vacancy`, `serialized_vacancies`) and the salary comparison
  operators (`__gt__`, `__lt__`).
* `src/src/file_manager.py` — two storage backends (`JsonFileManager`,
  `CsvFileManager`) with `save` / `add_object` / `delete_object`; file contents
  are modelled as pure values (the persisted collection), each operation maps
  old content to new content, and a Python exception is modelled by `Option`
  (`none` = the operation raises).
* `src/main.py` — the workflow; the only logic embedded from it is the
  truncation slice `filtered_vacancies[:top_vacancies]` (Python list slicing).

Python truthiness is embedded explicitly where the source relies on it
(`not salary_filter_value`, `if source_salary`, `filtered_vacancies or vacancies`).
-/

/-- A JSON-like value, for the raw API payload consumed by `Vacancy.json_to_object`. -/
inductive JValue where
  | null
  | str (s : String)
  | num (n : Int)
  | arr (xs : List JValue)
  | obj (fields : List (String × JValue))

/-- Python `dict.get(key)` (default `None`): the first binding of `key`, else `null`. -/
def pyDictGet (fields : List (String × JValue)) (key : String) : JValue :=
  match fields.lookup key with
  | some v => v
  | none => JValue.null

/-- The raw `Vacancy` object as built by `Vacancy.__init__` inside `json_to_object`:
each slot holds exactly the value the Python constructor was handed (a raw
`dict.get` result, so possibly `null`). -/
structure RawVacancy where
  name : JValue
  url : JValue
  salary : JValue
  description : JValue
  requirements : JValue

/-- One step of the list comprehension in `Vacancy.json_to_object`: build a
`Vacancy` from one raw item.  `vacancy.get("snippet").get("requirement")` only
succeeds when the item is a dict whose `"snippet"` value is itself a dict;
otherwise Python raises (`.get` on `None` or on a non-dict), modelled by `none`. -/
def itemToVacancy (item : JValue) : Option RawVacancy :=
  match item with
  | JValue.obj fields =>
    match pyDictGet fields "snippet" with
    | JValue.obj sfields =>
      some
        { name := pyDictGet fields "name"
          url := pyDictGet fields "url"
          salary := pyDictGet fields "salary"
          description := pyDictGet fields "description"
          requirements := pyDictGet sfields "requirement" }
    | _ => none
  | _ => none

/-- The list comprehension over all items: the first raising item aborts the whole
conversion (Python list comprehensions are sequential and propagate exceptions). -/
def itemsToVacancies : List JValue → Option (List RawVacancy)
  | [] => some []
  | item :: rest =>
    match itemToVacancy item, itemsToVacancies rest with
    | some v, some vs => some (v :: vs)
    | _, _ => none

/-- `Vacancy.json_to_object(vacancies)`: iterate over `vacancies.get("items")`.
Anything but a dict payload with a list under `"items"` raises (iterating `None`
or a non-list), modelled by `none`. -/
def json_to_object (payload : JValue) : Option (List RawVacancy) :=
  match payload with
  | JValue.obj fields =>
    match pyDictGet fields "items" with
    | JValue.arr items => itemsToVacancies items
    | _ => none
  | _ => none

/-- The salary range dict `{"from": ..., "to": ...}`; a `none` field is a missing
key or a JSON `null` (both give `None` under `dict.get`). -/
structure Salary where
  salFrom : Option Int
  salTo : Option Int
deriving DecidableEq, Repr

/-- The typed vacancy record used by the filter, comparison and serialization
logic: text fields are a string or `None`, the salary is a range dict or `None`. -/
structure Vacancy where
  name : Option String
  url : Option String
  salary : Option Salary
  description : Option String
  requirements : Option String
deriving DecidableEq, Repr

/-- Python truthiness of an `int | None` value: `None` and `0` are falsy. -/
def optIntTruthy : Option Int → Bool
  | none => false
  | some n => n != 0

/-- `Vacancy.is_filter_by_salary(salary_filter_value, vacancy_salary)`.
`if not salary_filter_value` is the `None`-or-`0` test; when no branch of the
final `if/elif/elif` fires the Python function falls through and returns `None`,
which the caller's boolean conjunction treats as falsy, hence `false` here. -/
def is_filter_by_salary (salary_filter_value : Option Int)
    (vacancy_salary : Option Salary) : Bool :=
  match salary_filter_value with
  | none => true
  | some t =>
    if t = 0 then true
    else
      match vacancy_salary with
      | none => false
      | some s =>
        let source_salary := s.salFrom
        let destination_salary := s.salTo
        if optIntTruthy source_salary && !optIntTruthy destination_salary then
          decide (t ≥ source_salary.getD 0)
        else if !optIntTruthy source_salary && optIntTruthy destination_salary then
          decide (t ≤ destination_salary.getD 0)
        else if optIntTruthy source_salary && optIntTruthy destination_salary then
          decide (source_salary.getD 0 ≤ t ∧ t ≤ destination_salary.getD 0)
        else
          false

/-- The keyword criteria accepted by `Vacancy.filter_by_fields`; `none` models an
absent kwarg, `some ""` the empty string the CLI passes for a skipped filter. -/
structure Criteria where
  name : Option String
  url : Option String
  salary : Option String
  description : Option String
  requirements : Option String
deriving DecidableEq, Repr

/-- Python truthiness of a `str | None` value: `None` and `""` are falsy. -/
def optStrTruthy : Option String → Bool
  | none => false
  | some s => !s.isEmpty

/-- Digit-run parsing for the model of Python `int()`: a non-empty all-digit run
is read in base 10, anything else raises `ValueError` (`none`). -/
def pyParseDigits (cs : List Char) : Option Nat :=
  if cs ≠ [] ∧ cs.all Char.isDigit then
    some (cs.foldl (fun acc c => acc * 10 + (c.toNat - 48)) 0)
  else none

/-- Model of Python `int(s)` on text: an optional sign followed by decimal digits
yields the integer, anything else raises `ValueError` (`none`). -/
def pyInt (s : String) : Option Int :=
  match s.toList with
  | '-' :: rest => (pyParseDigits rest).map (fun n => -(n : Int))
  | '+' :: rest => (pyParseDigits rest).map (fun n => (n : Int))
  | cs => (pyParseDigits cs).map (fun n => (n : Int))

/-- `salary = int(salary) if salary else None`, with `except ValueError: salary = None`:
a falsy (absent or empty) text gives no threshold, an unparseable text gives no
threshold, otherwise the parsed integer. -/
def parseSalaryFilter (salary : Option String) : Option Int :=
  match salary with
  | none => none
  | some s => if s.isEmpty then none else pyInt s

/-- One conjunct of the filter: `not crit or field == crit` for a text criterion. -/
def fieldPass (crit : Option String) (field : Option String) : Bool :=
  if optStrTruthy crit then field == crit else true

/-- Whether one vacancy passes every supplied criterion — the conjunction inside
the loop of `Vacancy.filter_by_fields`. -/
def matchesFilters (c : Criteria) (v : Vacancy) : Bool :=
  fieldPass c.name v.name &&
  fieldPass c.url v.url &&
  is_filter_by_salary (parseSalaryFilter c.salary) v.salary &&
  fieldPass c.description v.description &&
  fieldPass c.requirements v.requirements

/-- `Vacancy.filter_by_fields(vacancies, **kwargs)`: keep the vacancies matching
all criteria, but `return filtered_vacancies or vacancies` falls back to the
whole input when the filtered list is empty. -/
def filter_by_fields (vacancies : List Vacancy) (c : Criteria) : List Vacancy :=
  let filtered_vacancies := vacancies.filter (matchesFilters c)
  if filtered_vacancies.isEmpty then vacancies else filtered_vacancies

/-- A value of a serialized-vacancy dict: the text slots hold `str | None`, the
salary slot holds the raw range dict or `None`. -/
inductive FieldValue where
  | text (s : Option String)
  | range (s : Option Salary)
deriving DecidableEq, Repr

/-- `Vacancy.serialized_vacancy(vacancy)`: the five-key dict, in source order. -/
def serialized_vacancy (vacancy : Vacancy) : List (String × FieldValue) :=
  [("name", FieldValue.text vacancy.name),
   ("url", FieldValue.text vacancy.url),
   ("salary", FieldValue.range vacancy.salary),
   ("description", FieldValue.text vacancy.description),
   ("requirements", FieldValue.text vacancy.requirements)]

/-- `Vacancy.serialized_vacancies(vacancies)`: elementwise serialization. -/
def serialized_vacancies (vacancies : List Vacancy) : List (List (String × FieldValue)) :=
  vacancies.map serialized_vacancy

/-- Result of `Vacancy.__gt__` / `Vacancy.__lt__`: either one of the two records,
the sentinel string `'Зарплата не указана'`, or a raised exception (`KeyError` on a
missing `'to'` key, `TypeError` on comparing `None` bounds). -/
inductive CmpResult where
  | winner (v : Vacancy)
  | sentinel
  | raised
deriving DecidableEq, Repr

/-- `Vacancy.__gt__`: with both salaries non-`None`, return whichever record has
the strictly larger `salary['to']` (ties go to `other`); a missing or `None`
`'to'` raises; with either salary `None`, return the sentinel. -/
def Vacancy.gtCmp (self other : Vacancy) : CmpResult :=
  match self.salary, other.salary with
  | some s1, some s2 =>
    match s1.salTo, s2.salTo with
    | some a, some b => if a > b then CmpResult.winner self else CmpResult.winner other
    | _, _ => CmpResult.raised
  | _, _ => CmpResult.sentinel

/-- `Vacancy.__lt__`: symmetric to `__gt__` with the strict comparison reversed. -/
def Vacancy.ltCmp (self other : Vacancy) : CmpResult :=
  match self.salary, other.salary with
  | some s1, some s2 =>
    match s1.salTo, s2.salTo with
    | some a, some b => if a < b then CmpResult.winner self else CmpResult.winner other
    | _, _ => CmpResult.raised
  | _, _ => CmpResult.sentinel

/-- Python list slicing `xs[:stop]` for an integer `stop`: a negative `stop`
counts from the end (`max 0 (len + stop)` kept), a non-negative one is clamped
to the length.  This is `filtered_vacancies[:top_vacancies]` in `main.py`. -/
def pySliceTo {α : Type} (xs : List α) (stop : Int) : List α :=
  if stop < 0 then xs.take (xs.length - stop.natAbs) else xs.take stop.toNat

/-- `JsonFileManager.save(data)`: overwrite the file with `json.dump(data)`.  The
persisted JSON array is modelled as the list itself (a `dump`/`load` round trip
of JSON-representable data is the identity), so the new file content is `data`. -/
def JsonFileManager.save {α : Type} (data : List α) : List α :=
  data

/-- `JsonFileManager.add_object(data)`: `json.load` the file, `append` the one
record, `json.dump` the result back.  Maps old content to new content. -/
def JsonFileManager.add_object {α : Type} (file_data : List α) (data : α) : List α :=
  file_data ++ [data]

/-- Python `list.remove(x)`: drop the first element equal to `x` (the caller has
checked membership; on a list without `x`, `remove` raises `ValueError`). -/
def pyListRemove {α : Type} [DecidableEq α] : List α → α → List α
  | [], _ => []
  | y :: ys, x => if y = x then ys else y :: pyListRemove ys x

/-- `JsonFileManager.delete_object(data)`: load the file, `file_data.remove(data)`,
dump the result back.  `list.remove` drops only the first structurally equal
entry and raises `ValueError` (`none`) when no entry equals `data`. -/
def JsonFileManager.delete_object {α : Type} [DecidableEq α]
    (file_data : List α) (data : α) : Option (List α) :=
  if data ∈ file_data then some (pyListRemove file_data data) else none

/-- A serialized record as the CSV layer sees it: an ordered dict of text keys to
text values (every CSV cell is a string). -/
def Row : Type := List (String × String)

/-- A persisted CSV file: the header row, then one list of cell values per data
row (each data row is read back by `csv.DictReader` as `zip header values`). -/
structure CsvFile where
  header : List String
  rows : List (List String)
deriving DecidableEq, Repr

/-- `csv.DictWriter` writing one dict row under `fieldnames`: the value under each
field name, a missing key written as the empty cell (`restval=None` prints as `""`). -/
def rowValues (fieldnames : List String) (row : Row) : List String :=
  fieldnames.map fun k =>
    match List.lookup k row with
    | some v => v
    | none => ""

/-- Python `dict` equality on association lists (first binding wins, key order
irrelevant): the same key set with the same values. -/
def dictBeq (a b : Row) : Bool :=
  (a.map Prod.fst).all (fun k => List.lookup k b == List.lookup k a) &&
  (b.map Prod.fst).all (fun k => List.lookup k a == List.lookup k b)

/-- `CsvFileManager.save(data)`: `keys = data[0].keys()` raises `IndexError`
(`none`) on an empty record list; otherwise write the header derived from the
first record followed by all rows.  `DictWriter.writerow` raises `ValueError`
(`none`) when some row holds a key outside the field names. -/
def CsvFileManager.save (data : List Row) : Option CsvFile :=
  match data with
  | [] => none
  | first :: _ =>
    let keys := first.map Prod.fst
    if data.all (fun row => row.all (fun kv => kv.fst ∈ keys)) then
      some { header := keys, rows := data.map (rowValues keys) }
    else
      none

/-- `CsvFileManager.delete_object(data)`: read the rows back as dicts, keep those
with `row != data` (all structurally equal rows are dropped), rewrite header and
remaining rows. -/
def CsvFileManager.delete_object (file : CsvFile) (data : Row) : CsvFile :=
  { header := file.header
    rows := file.rows.filter fun vals => !dictBeq (file.header.zip vals) data }

/-- A vacancy with only a name, as built by `Vacancy(name)` with every optional
argument left out — concrete sample data for counterexamples and witnesses. -/
def sampleVacancy (nm : String) : Vacancy :=
  { name := some nm, url := none, salary := none, description := none, requirements := none }

/-- A vacancy carrying a salary range, for the comparison and filter samples. -/
def salariedVacancy (nm : String) (lo hi : Option Int) : Vacancy :=
  { name := some nm, url := none, salary := some ⟨lo, hi⟩, description := none,
    requirements := none }

/-- The empty criteria set: every filter skipped at the prompt. -/
def noCriteria : Criteria :=
  { name := none, url := none, salary := none, description := none, requirements := none }

/-- C1 counterexample: the claim says a supplied threshold with an absent record
salary fails the record, but the code's `if not salary_filter_value` treats the
supplied threshold `0` as no threshold at all, so the record passes. -/
theorem c1_zero_threshold_cex : is_filter_by_salary (some 0) none = true := rfl

/-- C1 (amended): the range rules hold for a nonzero threshold and nonzero salary
bounds: no threshold (or the threshold `0`, treated as absent by truthiness)
passes every record; a nonzero threshold fails an absent salary and fails a
salary with both bounds absent; with only `from` present it passes iff `T ≥ from`;
with only `to` present iff `T ≤ to`; with both present iff `from ≤ T ≤ to`. -/
theorem c1_salary_range_rules (t f y : Int) (s : Option Salary)
    (ht : t ≠ 0) (hf : f ≠ 0) (hy : y ≠ 0) :
    is_filter_by_salary none s = true ∧
    is_filter_by_salary (some 0) s = true ∧
    is_filter_by_salary (some t) none = false ∧
    is_filter_by_salary (some t) (some ⟨none, none⟩) = false ∧
    is_filter_by_salary (some t) (some ⟨some f, none⟩) = decide (t ≥ f) ∧
    is_filter_by_salary (some t) (some ⟨none, some y⟩) = decide (t ≤ y) ∧
    is_filter_by_salary (some t) (some ⟨some f, some y⟩) = decide (f ≤ t ∧ t ≤ y) := by
  refine ⟨rfl, rfl, ?_, ?_, ?_, ?_, ?_⟩ <;>
    simp [is_filter_by_salary, optIntTruthy, ht, hf, hy]

/-- C1 witness: threshold 1500 against the range `{from: 1000}` passes, and
threshold 1500 against an absent salary fails. -/
theorem c1_salary_range_rules_witness :
    (1500 : Int) ≠ 0 ∧ (1000 : Int) ≠ 0 ∧ (2000 : Int) ≠ 0 ∧
    is_filter_by_salary (some 1500) (some ⟨some 1000, none⟩) = true ∧
    is_filter_by_salary (some 1500) none = false := by
  have h := c1_salary_range_rules 1500 1000 2000 none (by decide) (by decide) (by decide)
  refine ⟨by decide, by decide, by decide, ?_, h.2.2.1⟩
  rw [h.2.2.2.2.1]
  decide

/-- C10: a salary criterion given as the text `"0"` parses to the integer `0`,
which `is_filter_by_salary` treats as no threshold — every record passes, and
`filter_by_fields` with only that criterion returns the collection unchanged. -/
theorem c10_zero_text_threshold (vs : List Vacancy) (s : Option Salary) :
    parseSalaryFilter (some "0") = some 0 ∧
    is_filter_by_salary (parseSalaryFilter (some "0")) s = true ∧
    filter_by_fields vs { noCriteria with salary := some "0" } = vs := by
  have hp : parseSalaryFilter (some "0") = some 0 := by decide
  have hm : ∀ v : Vacancy, matchesFilters { noCriteria with salary := some "0" } v = true := by
    intro v
    simp [matchesFilters, noCriteria, fieldPass, optStrTruthy, hp, is_filter_by_salary]
  refine ⟨hp, by rw [hp]; rfl, ?_⟩
  have hall : vs.filter (matchesFilters { noCriteria with salary := some "0" }) = vs :=
    List.filter_eq_self.mpr (fun v _ => hm v)
  simp [filter_by_fields, hall]

/-- C3 counterexample: the claim says a negative requested count yields the empty
sequence, but Python's `xs[:-1]` keeps everything except the last element. -/
theorem c3_negative_count_cex :
    pySliceTo [sampleVacancy "a", sampleVacancy "b"] (-1) = [sampleVacancy "a"] := by
  decide

/-- C3 (amended): truncation is a prefix slice in existing order; a count of `0`
yields the empty sequence and a count at least the length yields the whole
sequence, but a negative count `n` keeps the prefix of length `length - |n|`
(Python slice semantics), which is empty only when `|n| ≥ length`. -/
theorem c3_truncation (xs : List Vacancy) (n : Int) :
    pySliceTo xs 0 = [] ∧
    ((n : Int) ≥ (xs.length : Int) → pySliceTo xs n = xs) ∧
    (0 ≤ n → pySliceTo xs n = xs.take n.toNat) ∧
    (n < 0 → pySliceTo xs n = xs.take (xs.length - n.natAbs)) := by
  refine ⟨by simp [pySliceTo], ?_, ?_, ?_⟩
  · intro h
    have h0 : ¬ n < 0 := by omega
    simp only [pySliceTo, h0, if_false]
    exact List.take_of_length_le (by omega)
  · intro h
    have h0 : ¬ n < 0 := by omega
    simp [pySliceTo, h0]
  · intro h
    simp [pySliceTo, h]

/-- C3 witness: requesting 5 from a 2-element list yields the full list, and
requesting 0 yields the empty list. -/
theorem c3_truncation_witness :
    pySliceTo [sampleVacancy "a", sampleVacancy "b"] 5 = [sampleVacancy "a", sampleVacancy "b"] ∧
    pySliceTo ([] : List Vacancy) 0 = [] := by
  constructor
  · exact (c3_truncation [sampleVacancy "a", sampleVacancy "b"] 5).2.1 (by decide)
  · exact (c3_truncation [] 0).1

/-- C5: on a non-empty collection, criteria matching no record fall back to the
original collection unchanged, and criteria matching at least one record yield
exactly the records passing every supplied criterion. -/
theorem c5_filter_fallback (vs : List Vacancy) (c : Criteria) (_hne : vs ≠ []) :
    ((∀ v ∈ vs, matchesFilters c v = false) → filter_by_fields vs c = vs) ∧
    ((∃ v ∈ vs, matchesFilters c v = true) →
      filter_by_fields vs c = vs.filter (matchesFilters c)) := by
  constructor
  · intro h
    have hnil : vs.filter (matchesFilters c) = [] := by
      rw [List.filter_eq_nil_iff]
      intro a ha
      simp [h a ha]
    simp [filter_by_fields, hnil]
  · rintro ⟨v, hv, hm⟩
    have hne2 : vs.filter (matchesFilters c) ≠ [] := by
      intro hnil
      rw [List.filter_eq_nil_iff] at hnil
      exact hnil v hv (by simp [hm])
    have hb : (vs.filter (matchesFilters c)).isEmpty = false := by
      cases hI : (vs.filter (matchesFilters c)).isEmpty
      · rfl
      · exact absurd (List.isEmpty_iff.mp hI) hne2
    simp [filter_by_fields, hb]

/-- C5 witness: the one-record collection with a non-matching name criterion is
returned unchanged, and with an empty criteria set it is returned as its own
filtered subset. -/
theorem c5_filter_fallback_witness :
    filter_by_fields [sampleVacancy "a"] { noCriteria with name := some "b" } =
      [sampleVacancy "a"] ∧
    filter_by_fields [sampleVacancy "a"] noCriteria =
      List.filter (matchesFilters noCriteria) [sampleVacancy "a"] := by
  constructor
  · exact (c5_filter_fallback [sampleVacancy "a"] { noCriteria with name := some "b" }
      (by decide)).1 (by decide)
  · exact (c5_filter_fallback [sampleVacancy "a"] noCriteria (by decide)).2
      ⟨sampleVacancy "a", by decide, by decide⟩

/-- C6: with both salaries present and both upper bounds present and distinct,
`__gt__` returns the record with the larger `to` and `__lt__` the record with the
smaller `to`; with either salary absent, both return the sentinel, never a
boolean. -/
theorem c6_salary_comparison (a b : Vacancy) (sa sb : Salary) (ta tb : Int)
    (ha : a.salary = some sa) (hb : b.salary = some sb)
    (hta : sa.salTo = some ta) (htb : sb.salTo = some tb) :
    (ta > tb → Vacancy.gtCmp a b = CmpResult.winner a ∧ Vacancy.ltCmp a b = CmpResult.winner b) ∧
    (tb > ta → Vacancy.gtCmp a b = CmpResult.winner b ∧ Vacancy.ltCmp a b = CmpResult.winner a) ∧
    (∀ x y : Vacancy, x.salary = none ∨ y.salary = none →
      Vacancy.gtCmp x y = CmpResult.sentinel ∧ Vacancy.ltCmp x y = CmpResult.sentinel) := by
  refine ⟨?_, ?_, ?_⟩
  · intro h
    constructor
    · simp [Vacancy.gtCmp, ha, hb, hta, htb, h]
    · simp only [Vacancy.ltCmp, ha, hb, hta, htb]
      rw [if_neg (by omega)]
  · intro h
    constructor
    · simp only [Vacancy.gtCmp, ha, hb, hta, htb]
      rw [if_neg (by omega)]
    · simp [Vacancy.ltCmp, ha, hb, hta, htb, h]
  · intro x y h
    rcases h with hx | hy
    · cases hys : y.salary <;> simp [Vacancy.gtCmp, Vacancy.ltCmp, hx, hys]
    · cases hxs : x.salary <;> simp [Vacancy.gtCmp, Vacancy.ltCmp, hxs, hy]

/-- C6 witness: salaries `{to: 100}` and `{to: 200}` — the greater-comparison
selects the 200 record and the less-comparison the 100 record. -/
theorem c6_salary_comparison_witness :
    Vacancy.gtCmp (salariedVacancy "a" none (some 100)) (salariedVacancy "b" none (some 200))
      = CmpResult.winner (salariedVacancy "b" none (some 200)) ∧
    Vacancy.ltCmp (salariedVacancy "a" none (some 100)) (salariedVacancy "b" none (some 200))
      = CmpResult.winner (salariedVacancy "a" none (some 100)) := by
  have h := c6_salary_comparison (salariedVacancy "a" none (some 100))
    (salariedVacancy "b" none (some 200)) ⟨none, some 100⟩ ⟨none, some 200⟩ 100 200
    rfl rfl rfl rfl
  exact h.2.1 (by decide)

/-- C9: serialization of a vacancy is a pure total mapping with exactly the five
canonical keys in source order, each bound to the corresponding field of the
record, and the plural form is the elementwise map. -/
theorem c9_serialization (v : Vacancy) (vs : List Vacancy) :
    (serialized_vacancy v).map Prod.fst =
      ["name", "url", "salary", "description", "requirements"] ∧
    List.lookup "name" (serialized_vacancy v) = some (FieldValue.text v.name) ∧
    List.lookup "url" (serialized_vacancy v) = some (FieldValue.text v.url) ∧
    List.lookup "salary" (serialized_vacancy v) = some (FieldValue.range v.salary) ∧
    List.lookup "description" (serialized_vacancy v) = some (FieldValue.text v.description) ∧
    List.lookup "requirements" (serialized_vacancy v) = some (FieldValue.text v.requirements) ∧
    serialized_vacancies vs = vs.map serialized_vacancy := by
  exact ⟨rfl, rfl, rfl, rfl, rfl, rfl, rfl⟩

/-- C7: `save` persists exactly the given collection, and `append` loads the
persisted collection, adds the one record at the end and writes the whole
collection back, so `save [r1, r2]` then `append r3` reloads as `[r1, r2, r3]`. -/
theorem c7_save_append_roundtrip {α : Type} (r1 r2 r3 : α) (file : List α) (data : α) :
    JsonFileManager.save [r1, r2] = [r1, r2] ∧
    JsonFileManager.add_object (JsonFileManager.save [r1, r2]) r3 = [r1, r2, r3] ∧
    JsonFileManager.add_object file data = file ++ [data] := by
  exact ⟨rfl, rfl, rfl⟩

/-- When every item converts, the comprehension returns the elementwise
conversion: same length, same order. -/
theorem itemsToVacancies_total (items : List JValue)
    (h : ∀ item ∈ items, (itemToVacancy item).isSome) :
    ∃ vs, itemsToVacancies items = some vs ∧ vs.length = items.length ∧
      ∀ i : Nat, vs[i]? = (items[i]?).bind itemToVacancy := by
  induction items with
  | nil => exact ⟨[], rfl, rfl, fun i => by simp⟩
  | cons x xs ih =>
    obtain ⟨v, hv⟩ := Option.isSome_iff_exists.mp (h x (by simp))
    obtain ⟨vs, hvs, hlen, hidx⟩ := ih (fun it hit => h it (by simp [hit]))
    refine ⟨v :: vs, by simp [itemsToVacancies, hv, hvs], by simp [hlen], ?_⟩
    intro i
    cases i with
    | zero => simp [hv]
    | succ n => simp [hidx n]

/-- C2 counterexample: a payload whose single item has no `"snippet"` object
makes `json_to_object` raise (`vacancy.get("snippet")` is `None` and `.get` on
`None` is an `AttributeError`), instead of yielding an absent `requirements`. -/
theorem c2_missing_snippet_cex :
    json_to_object (JValue.obj [("items", JValue.arr [JValue.obj []])]) = none := rfl

/-- C2 (amended): when every item of the `items` array is a dict whose
`"snippet"` value is itself a dict, `json_to_object` produces one vacancy per
item in input order; a snippet dict lacking the `"requirement"` key yields the
absent (`null`) value for `requirements`; but an item whose `"snippet"` is
missing (or `null`) makes the conversion raise rather than yield an absence. -/
theorem c2_json_to_object_mapping (items : List JValue) (rest : List (String × JValue))
    (h : ∀ item ∈ items, (itemToVacancy item).isSome) :
    (∃ vs, json_to_object (JValue.obj (("items", JValue.arr items) :: rest)) = some vs ∧
      vs.length = items.length ∧ ∀ i : Nat, vs[i]? = (items[i]?).bind itemToVacancy) ∧
    (∀ fields sfields, pyDictGet fields "snippet" = JValue.obj sfields →
      ∃ rv, itemToVacancy (JValue.obj fields) = some rv ∧
        rv.requirements = pyDictGet sfields "requirement") ∧
    (∀ fields, pyDictGet fields "snippet" = JValue.null →
      itemToVacancy (JValue.obj fields) = none) := by
  refine ⟨?_, ?_, ?_⟩
  · obtain ⟨vs, hvs, hlen, hidx⟩ := itemsToVacancies_total items h
    refine ⟨vs, ?_, hlen, hidx⟩
    simp [json_to_object, pyDictGet, List.lookup, hvs]
  · intro fields sfields hs
    refine ⟨{ name := pyDictGet fields "name", url := pyDictGet fields "url",
              salary := pyDictGet fields "salary",
              description := pyDictGet fields "description",
              requirements := pyDictGet sfields "requirement" }, ?_, rfl⟩
    simp [itemToVacancy, hs]
  · intro fields hs
    simp [itemToVacancy, hs]

/-- A raw item with a name and an empty snippet dict, as returned by the API when
the snippet carries no requirement text. -/
def sampleItem : JValue :=
  JValue.obj [("name", JValue.str "dev"), ("snippet", JValue.obj [])]

/-- C2 witness: the one-item payload with an empty snippet dict converts to one
vacancy whose `requirements` is the absent value. -/
theorem c2_json_to_object_mapping_witness :
    ∃ vs, json_to_object (JValue.obj (("items", JValue.arr [sampleItem]) :: [])) = some vs ∧
      vs.length = [sampleItem].length ∧
      ∀ i : Nat, vs[i]? = ([sampleItem][i]?).bind itemToVacancy := by
  exact (c2_json_to_object_mapping [sampleItem] [] (by
    intro item hit
    simp only [List.mem_singleton] at hit
    subst hit
    rfl)).1

/-- Python `list.remove` on a list split around the first occurrence of `r`:
exactly that one occurrence is dropped. -/
theorem pyListRemove_append {α : Type} [DecidableEq α] (pre post : List α) (r : α)
    (h : r ∉ pre) :
    pyListRemove (pre ++ r :: post) r = pre ++ post := by
  induction pre with
  | nil => simp [pyListRemove]
  | cons x xs ih =>
    have hx : x ≠ r := fun e => h (by simp [e])
    have hxs : r ∉ xs := fun hm => h (by simp [hm])
    simp [pyListRemove, hx, ih hxs]

/-- C4 (amended): the JSON backend's delete removes only the first entry
structurally equal to the record and raises `ValueError` when no entry matches;
the CSV backend's delete keeps the header and removes every row structurally
equal (as a dict) to the record, writing back exactly the remainder. -/
theorem c4_delete_semantics {α : Type} [DecidableEq α] (pre post missing : List α) (r : α)
    (h1 : r ∉ pre) (h2 : r ∉ missing) (csv : CsvFile) (d : Row) :
    JsonFileManager.delete_object (pre ++ r :: post) r = some (pre ++ post) ∧
    JsonFileManager.delete_object missing r = none ∧
    (CsvFileManager.delete_object csv d).header = csv.header ∧
    (∀ vals, vals ∈ (CsvFileManager.delete_object csv d).rows ↔
      vals ∈ csv.rows ∧ dictBeq (csv.header.zip vals) d = false) := by
  refine ⟨?_, ?_, rfl, ?_⟩
  · have hm : r ∈ pre ++ r :: post := by simp
    simp [JsonFileManager.delete_object, hm, pyListRemove_append pre post r h1]
  · simp [JsonFileManager.delete_object, h2]
  · intro vals
    simp [CsvFileManager.delete_object, List.mem_filter]

/-- C4 counterexample: deleting a record from a persisted collection holding two
structurally equal copies leaves one copy behind — the claim's "removes all
entries structurally equal" fails on the JSON backend. -/
theorem c4_duplicate_delete_cex :
    JsonFileManager.delete_object
      [serialized_vacancy (sampleVacancy "a"), serialized_vacancy (sampleVacancy "a")]
      (serialized_vacancy (sampleVacancy "a"))
      = some [serialized_vacancy (sampleVacancy "a")] := by
  decide

/-- C4 witness: deleting the only copy empties the collection, and deleting from
a collection without a matching entry raises. -/
theorem c4_delete_semantics_witness :
    JsonFileManager.delete_object [serialized_vacancy (sampleVacancy "a")]
      (serialized_vacancy (sampleVacancy "a")) = some [] ∧
    JsonFileManager.delete_object ([] : List (List (String × FieldValue)))
      (serialized_vacancy (sampleVacancy "a")) = none := by
  have h := c4_delete_semantics ([] : List (List (String × FieldValue))) [] []
    (serialized_vacancy (sampleVacancy "a")) (by simp) (by simp) ⟨[], []⟩ []
  exact ⟨by simpa using h.1, h.2.1⟩

/-- C8: the CSV backend's save raises `IndexError` on an empty record sequence
(no `data[0]` to derive headers from) before touching the file, and on success
for a non-empty sequence the written header row is the first record's keys. -/
theorem c8_csv_save_headers (first : Row) (rest : List Row) (file : CsvFile) :
    CsvFileManager.save [] = none ∧
    (CsvFileManager.save (first :: rest) = some file → file.header = first.map Prod.fst) := by
  refine ⟨rfl, ?_⟩
  intro h
  simp only [CsvFileManager.save] at h
  split at h
  · obtain rfl := Option.some.inj h
    rfl
  · exact absurd h (by simp)

/-- C8 witness: saving one one-column record succeeds with that record's key as
the header. -/
theorem c8_csv_save_headers_witness :
    CsvFileManager.save [[("name", "dev")]] =
      some { header := ["name"], rows := [["dev"]] } ∧
    ({ header := ["name"], rows := [["dev"]] } : CsvFile).header =
      List.map Prod.fst [("name", "dev")] := by
  refine ⟨by decide, ?_⟩
  exact (c8_csv_save_headers [("name", "dev")] []
    { header := ["name"], rows := [["dev"]] }).2 (by decide)
